import Mathlib

/-!
Shallow embedding of the configuration / token-provider layer (`src/config.py`)
and the dual-backend API adapter (`src/api_client.py`) of the
atscale-aggregate-util CLI, with proofs about token lifecycle, validation and
response normalization.

Python dicts are modelled as ordered association lists `List (String × JVal)`,
JSON values as the inductive `JVal`, raised exceptions as `Except PyError`,
and HTTP traffic as explicit oracle arguments (`Except Unit _`): `.error` is a
transport/HTTP failure, `.ok` carries the parsed response body.  The two
module-global token caches are passed in and returned explicitly.
-/

/-- JSON values as manipulated by the code.  Objects are ordered association
lists (the insertion order of a Python dict); the numbers the code handles are
integers. -/
inductive JVal where
  | str : String → JVal
  | num : Int → JVal
  | bool : Bool → JVal
  | null : JVal
  | arr : List JVal → JVal
  | obj : List (String × JVal) → JVal

/-- Python `d.get(k, dflt)` on a dict. -/
def dictGet (d : List (String × JVal)) (k : String) (dflt : JVal) : JVal :=
  match d.lookup k with
  | some v => v
  | none => dflt

/-- Python dict assignment `d[k] = v`: overwrite the existing entry in place,
or append a new one. -/
def setKey (d : List (String × JVal)) (k : String) (v : JVal) : List (String × JVal) :=
  if d.any (fun p => p.1 == k) then
    d.map (fun p => if p.1 == k then (k, v) else p)
  else
    d ++ [(k, v)]

/-- Navigation through nested JSON objects (successive dict lookups). -/
def jpath : List String → JVal → Option JVal
  | [], j => some j
  | k :: ks, .obj l =>
    match l.lookup k with
    | some v => jpath ks v
    | none => none
  | _ :: _, _ => none

/-- Python truthiness of an optional string value (`None` and `""` are falsy). -/
def pyTruthy : Option String → Bool
  | none => false
  | some s => s != ""

/-- Python `str(b).lower()` for a boolean. -/
def pyBoolStr : Bool → String
  | true => "true"
  | false => "false"

/-- The exceptions the embedded code can raise. -/
inductive PyError where
  | keyError (key : String)
  | valueError (msg : String)
  | requestError
  | typeError
  deriving DecidableEq

/-- The connection profile read from `config.json`: every field the code
accesses, `none` meaning the key is absent from the file. -/
structure Config where
  instance_type : Option String := none
  host : Option String := none
  username : Option String := none
  password : Option String := none
  organization : Option String := none
  token : Option String := none
  client_id : Option String := none
  client_secret : Option String := none
  deriving DecidableEq

/-- `config.normalize_host`: prepend `https://` unless a protocol is already
present (or the host is empty/falsy). -/
def normalize_host (host : String) : String :=
  if host = "" then host
  else if host.startsWith "http://" || host.startsWith "https://" then host
  else "https://" ++ host

/-- `config.get_jwt(force_refresh)`.  `cache` is the module global `_JWT_CACHE`,
`net` the outcome of the Basic-auth HTTP request (`.ok` carries `resp.text`).
Returns the token, the new cache and the number of network calls issued. -/
def get_jwt (config : Config) (cache : Option String) (force_refresh : Bool)
    (net : Except Unit String) : Except PyError (String × Option String × Nat) :=
  if config.instance_type = some "installer" then
    if pyTruthy cache && !force_refresh then
      .ok (cache.getD "", cache, 0)
    else
      match config.host with
      | none => .error (.keyError "host")
      | some host =>
        match config.username with
        | none => .error (.keyError "username")
        | some _username =>
          match config.password with
          | none => .error (.keyError "password")
          | some _password =>
            match config.organization with
            | none => .error (.keyError "organization")
            | some _org =>
              let _hostUrl := normalize_host host
              match net with
              | .error _ => .error .requestError
              | .ok body =>
                let tok := body.trim
                .ok (tok, some tok, 1)
  else if config.instance_type = some "container" then
    if pyTruthy config.token then
      .ok (config.token.getD "", cache, 0)
    else
      .error (.valueError "Container instance requires token field for public API access")
  else
    .error (.valueError "Unknown instance_type")

/-- `config.get_container_jwt(force_refresh)`.  `cache` is the module global
`_CONTAINER_JWT_CACHE`; `oidc` is the outcome of the OIDC password-grant
request, `.ok` carrying `resp.json().get("access_token")` (any exception in the
`try` block is `.error`).  Returns the token (or `none` when unavailable) and
the new cache. -/
def get_container_jwt (config : Config) (cache : Option String) (force_refresh : Bool)
    (oidc : Except Unit (Option String)) : Except PyError (Option String × Option String) :=
  if config.instance_type ≠ some "container" then
    .error (.valueError "get_container_jwt only works for container instances")
  else if pyTruthy cache && !force_refresh then
    .ok (cache, cache)
  else
    match config.host with
    | none => .error (.keyError "host")
    | some host =>
      let _hostUrl := normalize_host host
      if !(pyTruthy config.client_id && pyTruthy config.client_secret &&
           pyTruthy config.username && pyTruthy config.password) then
        .ok (none, cache)
      else
        match oidc with
        | .error _ => .ok (none, cache)
        | .ok tok => .ok (tok, tok)

/-- `config.validate_config`: required keys depend on the instance type
(`config.get("instance_type", "installer")`); key presence is what is checked
(`field not in config`). -/
def validate_config (config : Config) : Except PyError Config :=
  let instance_type := config.instance_type.getD "installer"
  if instance_type = "installer" then
    if config.host = none ∨ config.username = none ∨ config.password = none ∨
        config.organization = none then
      .error (.valueError "Installer config missing fields")
    else
      .ok config
  else if instance_type = "container" then
    if config.host = none ∨ config.token = none then
      .error (.valueError "Container config missing fields")
    else
      .ok config
  else
    .error (.valueError "Invalid instance_type")

/-- An outgoing HTTP request as the adapter builds it: the URL and the
optional JSON body (`json=...` keyword of `requests.post`). -/
structure HttpRequest where
  url : String
  body : Option JVal

/-- `AtScaleAPIClient._get_base_url`. -/
def get_base_url (config : Config) : Except PyError String :=
  match config.host with
  | none => .error (.keyError "host")
  | some host =>
    if config.instance_type = some "installer" then
      match config.organization with
      | none => .error (.keyError "organization")
      | some org => .ok ("https://" ++ host ++ ":10500/" ++ org)
    else
      .ok ("https://" ++ host)

/-- The request `AtScaleAPIClient.rebuild_cube` issues (URL and body; headers
and the response are not needed by the claims). -/
def rebuild_cube_request (config : Config) (catalog_id model_id : String)
    (is_full_build : Bool) : Except PyError HttpRequest :=
  if config.instance_type = some "installer" then
    match config.host with
    | none => .error (.keyError "host")
    | some host =>
      match config.organization with
      | none => .error (.keyError "organization")
      | some org =>
        .ok { url := ("https://" ++ host ++ ":10502/aggregate-batch/orgId/" ++ org ++
                "/projectId/" ++ catalog_id ++ "?cubeId=" ++ model_id ++
                "&isFullBuild=") ++ pyBoolStr is_full_build,
              body := none }
  else
    match get_base_url config with
    | .error e => .error e
    | .ok base =>
      .ok { url := (base ++ "/v1/aggregates-batch/catalogs/" ++ catalog_id ++
              "/models/" ++ model_id ++ "?isFullBuild=") ++ pyBoolStr is_full_build,
            body := some (.obj [("gracePeriodOverrides", .obj [])]) }

/-- The `stats = agg.get("stats", {})` step of the aggregate transformation:
an absent key yields `{}`; a non-dict value would make the subsequent `.get`
calls raise in Python, modelled as `none`. -/
def getStats (agg : List (String × JVal)) : Option (List (String × JVal)) :=
  match agg.lookup "stats" with
  | none => some []
  | some (.obj s) => some s
  | some _ => none

/-- The `latest_instance` dict built by
`AtScaleAPIClient._transform_container_aggregates`. -/
def latestInstanceDict (agg stats : List (String × JVal)) : List (String × JVal) :=
  [("id", dictGet agg "id" (.str "")),
   ("status", dictGet agg "status" (.str "unknown")),
   ("message", dictGet agg "message" (.str "")),
   ("table_name", dictGet agg "tableName" (.str "")),
   ("table_schema", dictGet agg "tableSchema" (.str "")),
   ("batch_id", dictGet agg "buildQueryId" (.str "")),
   ("connection_id", dictGet agg "connectionId" (.str "")),
   ("stats", .obj
     [("materialization_start_time", dictGet stats "materializationStartTime" (.str "")),
      ("materialization_end_time", dictGet stats "materializationEndTime" (.str "")),
      ("build_duration", dictGet stats "buildDuration" (.num 0)),
      ("number_of_rows", dictGet stats "numberOfRows" (.num 0))])]

/-- The `active_instance` dict built by
`AtScaleAPIClient._transform_container_aggregates`: same fields as
`latest_instance`, except that `stats` is the raw source `stats` dict. -/
def activeInstanceDict (agg stats : List (String × JVal)) : List (String × JVal) :=
  [("id", dictGet agg "id" (.str "")),
   ("status", dictGet agg "status" (.str "unknown")),
   ("message", dictGet agg "message" (.str "")),
   ("table_name", dictGet agg "tableName" (.str "")),
   ("table_schema", dictGet agg "tableSchema" (.str "")),
   ("batch_id", dictGet agg "buildQueryId" (.str "")),
   ("connection_id", dictGet agg "connectionId" (.str "")),
   ("stats", .obj stats)]

/-- The per-record dict built in the loop of
`AtScaleAPIClient._transform_container_aggregates`. -/
def transformedAggregate (agg stats : List (String × JVal))
    (catalog_id model_id : String) : List (String × JVal) :=
  [("id", dictGet agg "definitionId" (.str "")),
   ("name", dictGet agg "definitionId" (.str "")),
   ("type", .str "system_defined"),
   ("subtype", .str "prediction_defined"),
   ("attributes", .arr []),
   ("project_id", dictGet agg "catalogId" (.str catalog_id)),
   ("cube_id", dictGet agg "modelId" (.str model_id)),
   ("connection_id", dictGet agg "connectionId" (.str "")),
   ("incremental", .bool false),
   ("stats", .obj
     [("created_at", .str ""),
      ("average_build_duration", dictGet stats "buildDuration" (.num 0)),
      ("query_utilization", .num 0),
      ("most_recent_query", .str "")]),
   ("latest_instance", .obj (latestInstanceDict agg stats)),
   ("active_instance", .obj (activeInstanceDict agg stats))]

/-- One iteration of the aggregate-transformation loop: extract `stats`, then
build the normalized record. -/
def transformAggregate (agg : List (String × JVal)) (catalog_id model_id : String) :
    Option (List (String × JVal)) :=
  (getStats agg).map (fun stats => transformedAggregate agg stats catalog_id model_id)

/-- `List.mapM` over `Option`, written recursively so facts about it follow by
induction. -/
def mapOption (f : α → Option β) : List α → Option (List β)
  | [] => some []
  | x :: xs =>
    match f x, mapOption f xs with
    | some y, some ys => some (y :: ys)
    | _, _ => none

/-- `AtScaleAPIClient._transform_container_aggregates`: normalize the Container
payload into the installer-shaped envelope
`{response: {data, total, limit: 200, offset: 0}}`. -/
def transform_container_aggregates (container_data : JVal)
    (catalog_id model_id : String) : Option JVal :=
  match container_data with
  | .obj cd =>
    match dictGet cd "data" (.arr []) with
    | .arr items =>
      match mapOption (fun it =>
          match it with
          | .obj agg => (transformAggregate agg catalog_id model_id).map JVal.obj
          | _ => none) items with
      | some transformed =>
        some (.obj [("response", .obj
          [("data", .arr transformed),
           ("total", .num (items.length : Int)),
           ("limit", .num 200),
           ("offset", .num 0)])])
      | none => none
    | _ => none
  | _ => none

/-- The Container branch of `AtScaleAPIClient.get_aggregates_by_cube`:
`payload` is the parsed response body; the `limit` argument is not used on
this branch (the Container URL carries no limit). -/
def get_aggregates_by_cube_container (payload : JVal) (catalog_id model_id : String)
    (_limit : Int) : Option JVal :=
  transform_container_aggregates payload catalog_id model_id

/-- The per-batch step of `AtScaleAPIClient._transform_container_build_history`:
copy the dict, then assign `transformed_batch["batchId"] = batch.get("id", "")`. -/
def transformBuildBatch (batch : List (String × JVal)) : List (String × JVal) :=
  setKey batch "batchId" (dictGet batch "id" (.str ""))

/-- `AtScaleAPIClient._transform_container_build_history`. -/
def transform_container_build_history (container_data : JVal) : Option JVal :=
  match container_data with
  | .obj cd =>
    match dictGet cd "data" (.arr []) with
    | .arr items =>
      match mapOption (fun it =>
          match it with
          | .obj b => some (JVal.obj (transformBuildBatch b))
          | _ => none) items with
      | some transformed =>
        some (.obj [("response", .obj
          [("data", .arr transformed),
           ("total", dictGet cd "total" (.num 0)),
           ("limit", dictGet cd "limit" (.num 20)),
           ("offset", dictGet cd "offset" (.num 0))])])
      | none => none
    | _ => none
  | _ => none

/-- The empty envelope returned by `get_aggregate_build_history` when no
private token is available on a Container instance. -/
def emptyHistoryEnvelope (limit : Int) : JVal :=
  .obj [("response", .obj
    [("data", .arr []),
     ("total", .num 0),
     ("limit", .num limit),
     ("offset", .num 0)])]

/-- The Container branch of `AtScaleAPIClient.get_aggregate_build_history`:
acquire the private token, degrade to the empty envelope (with a printed
warning, modelled by the `Bool`) when it is unavailable, otherwise issue the
request and normalize the payload.  Returns (result, warned, new cache). -/
def get_aggregate_build_history_container (config : Config) (cache : Option String)
    (oidc : Except Unit (Option String)) (net : Except Unit JVal)
    (limit : Int) : Except PyError (JVal × Bool × Option String) :=
  match get_container_jwt config cache false oidc with
  | .error e => .error e
  | .ok (container_jwt, cache') =>
    if !pyTruthy container_jwt then
      .ok (emptyHistoryEnvelope limit, true, cache')
    else
      match net with
      | .error _ => .error .requestError
      | .ok payload =>
        match transform_container_build_history payload with
        | some envelope => .ok (envelope, false, cache')
        | none => .error .typeError

/-! Helper lemmas. -/

lemma jpath_one (k : String) (l : List (String × JVal)) :
    jpath [k] (.obj l) = List.lookup k l := by
  cases h : List.lookup k l <;> simp [jpath, h]

lemma jpath_cons (k : String) (ks : List String) (l : List (String × JVal)) (v : JVal)
    (h : List.lookup k l = some v) :
    jpath (k :: ks) (.obj l) = jpath ks v := by
  simp [jpath, h]

/-- Claim C5: for every Installer configuration and every cache state,
`get_container_jwt` raises `ValueError` (the spec's `UnsupportedOperation`);
it never returns a token. -/
theorem get_container_jwt_installer_raises (config : Config) (cache : Option String)
    (force_refresh : Bool) (oidc : Except Unit (Option String))
    (h : config.instance_type = some "installer") :
    get_container_jwt config cache force_refresh oidc =
      .error (.valueError "get_container_jwt only works for container instances") := by
  simp [get_container_jwt, h]

theorem get_container_jwt_installer_raises_witness :
    get_container_jwt { instance_type := some "installer" } none false (.ok none) =
      .error (.valueError "get_container_jwt only works for container instances") :=
  get_container_jwt_installer_raises _ none false (.ok none) rfl

/-- Claim C2, counterexample: a Container configuration missing `client_id`,
but with a warm private-token cache and `force_refresh = false`, makes
`get_container_jwt` return the cached token, not `None`. -/
theorem get_container_jwt_warm_cache_counterexample :
    get_container_jwt
        { instance_type := some "container", host := some "h",
          client_secret := some "s", username := some "u", password := some "p" }
        (some "cached") false (.ok none) = .ok (some "cached", some "cached") ∧
      (some "cached" : Option String) ≠ none := by
  exact ⟨rfl, by simp⟩

/-- Claim C2, amended: for every Container configuration (with its `host` key
present) missing or blank in any of `client_id`, `client_secret`, `username`,
`password`, `get_container_jwt` returns `None` without raising and leaves the
cache unchanged, provided the cached private token is cold/falsy or a refresh
is forced (with a warm cache and no forced refresh it returns the cached
token instead). -/
theorem get_container_jwt_missing_credentials (config : Config) (cache : Option String)
    (force_refresh : Bool) (oidc : Except Unit (Option String)) (h : String)
    (hct : config.instance_type = some "container")
    (hhost : config.host = some h)
    (hmiss : (pyTruthy config.client_id && pyTruthy config.client_secret &&
              pyTruthy config.username && pyTruthy config.password) = false)
    (hcold : pyTruthy cache = false ∨ force_refresh = true) :
    get_container_jwt config cache force_refresh oidc = .ok (none, cache) := by
  rcases hcold with hc | hf
  · simp [get_container_jwt, hct, hhost, hc, hmiss]
  · simp [get_container_jwt, hct, hhost, hf, hmiss]

theorem get_container_jwt_missing_credentials_witness :
    get_container_jwt
        { instance_type := some "container", host := some "h",
          client_secret := some "s", username := some "u", password := some "p" }
        none false (.ok (some "tok")) = .ok (none, none) :=
  get_container_jwt_missing_credentials _ none false (.ok (some "tok")) "h"
    rfl rfl rfl (Or.inl rfl)

/-- Claim C6: with a warm public-token cache, if a `get_jwt(false)` call
succeeds, an immediately following `get_jwt(false)` call issues zero network
calls, returns the same token, and leaves the cache unchanged. -/
theorem get_jwt_second_call_uses_cache (config : Config) (cache cache₁ : Option String)
    (net₁ net₂ : Except Unit String) (tok : String) (n₁ : Nat)
    (hwarm : pyTruthy cache = true)
    (h₁ : get_jwt config cache false net₁ = .ok (tok, cache₁, n₁)) :
    get_jwt config cache₁ false net₂ = .ok (tok, cache₁, 0) := by
  by_cases hins : config.instance_type = some "installer"
  · simp [get_jwt, hins, hwarm] at h₁
    obtain ⟨ht, hc, _⟩ := h₁
    subst hc
    simp [get_jwt, hins, hwarm, ht]
  · by_cases hcon : config.instance_type = some "container"
    · by_cases htok : pyTruthy config.token = true
      · simp [get_jwt, hins, hcon, htok] at h₁ ⊢
        obtain ⟨ht, hc, _⟩ := h₁
        subst hc
        exact ht
      · simp [get_jwt, hins, hcon, htok] at h₁
    · simp [get_jwt, hins, hcon] at h₁

theorem get_jwt_second_call_uses_cache_witness :
    get_jwt { instance_type := some "installer" } (some "t") false (.error ()) =
      .ok ("t", some "t", 0) :=
  get_jwt_second_call_uses_cache { instance_type := some "installer" } (some "t")
    (some "t") (.error ()) (.error ()) "t" 0 rfl rfl

/-- Claim C3: on a Container instance whose private token is unavailable, the
build-history operation returns the empty envelope (`data = []`, `total = 0`),
emits the one-line warning (the `Bool` component), and does not raise. -/
theorem build_history_no_token_empty (config : Config) (cache : Option String)
    (oidc : Except Unit (Option String)) (net : Except Unit JVal) (limit : Int)
    (tok cache' : Option String)
    (h : get_container_jwt config cache false oidc = .ok (tok, cache'))
    (htok : pyTruthy tok = false) :
    get_aggregate_build_history_container config cache oidc net limit =
      .ok (emptyHistoryEnvelope limit, true, cache') ∧
    jpath ["response", "data"] (emptyHistoryEnvelope limit) = some (.arr []) ∧
    jpath ["response", "total"] (emptyHistoryEnvelope limit) = some (.num 0) := by
  refine ⟨?_, rfl, rfl⟩
  simp [get_aggregate_build_history_container, h, htok]

theorem build_history_no_token_empty_witness :
    get_aggregate_build_history_container
        { instance_type := some "container", host := some "h" } none (.ok none)
        (.error ()) 20 = .ok (emptyHistoryEnvelope 20, true, none) ∧
    jpath ["response", "data"] (emptyHistoryEnvelope 20) = some (.arr []) ∧
    jpath ["response", "total"] (emptyHistoryEnvelope 20) = some (.num 0) :=
  build_history_no_token_empty _ none (.ok none) (.error ()) 20 none none rfl rfl

/-- Claim C7: `validate_config` fails exactly when a required key for the
(defaulted) instance type is absent, or the instance type is invalid; on
success it returns the configuration unchanged. -/
theorem validate_config_spec (config : Config) :
    (∀ c, validate_config config = .ok c → c = config) ∧
    ((∃ e, validate_config config = .error e) ↔
      ((config.instance_type.getD "installer" = "installer" ∧
        (config.host = none ∨ config.username = none ∨ config.password = none ∨
         config.organization = none)) ∨
       (config.instance_type.getD "installer" = "container" ∧
        (config.host = none ∨ config.token = none)) ∨
       (config.instance_type.getD "installer" ≠ "installer" ∧
        config.instance_type.getD "installer" ≠ "container"))) := by
  constructor
  · intro c hc
    unfold validate_config at hc
    by_cases hk1 : config.instance_type.getD "installer" = "installer"
    · rw [if_pos hk1] at hc
      split_ifs at hc
      simp_all
    · rw [if_neg hk1] at hc
      by_cases hk2 : config.instance_type.getD "installer" = "container"
      · rw [if_pos hk2] at hc
        split_ifs at hc
        simp_all
      · rw [if_neg hk2] at hc
        simp at hc
  · unfold validate_config
    by_cases hk1 : config.instance_type.getD "installer" = "installer"
    · rw [if_pos hk1]
      by_cases hm : config.host = none ∨ config.username = none ∨
          config.password = none ∨ config.organization = none
      · rw [if_pos hm]
        simp [hk1, hm]
      · rw [if_neg hm]
        simp [hk1, hm]
    · rw [if_neg hk1]
      by_cases hk2 : config.instance_type.getD "installer" = "container"
      · rw [if_pos hk2]
        by_cases hm : config.host = none ∨ config.token = none
        · rw [if_pos hm]
          simp [hk1, hk2, hm]
        · rw [if_neg hm]
          simp [hk1, hk2, hm]
      · rw [if_neg hk2]
        simp [hk1, hk2]

theorem validate_config_spec_witness :
    (( ({} : Config).instance_type.getD "installer" = "installer" ∧
       (({} : Config).host = none ∨ ({} : Config).username = none ∨
        ({} : Config).password = none ∨ ({} : Config).organization = none)) ∨
     (({} : Config).instance_type.getD "installer" = "container" ∧
      (({} : Config).host = none ∨ ({} : Config).token = none)) ∨
     (({} : Config).instance_type.getD "installer" ≠ "installer" ∧
      ({} : Config).instance_type.getD "installer" ≠ "container")) :=
  (validate_config_spec {}).2.mp ⟨.valueError "Installer config missing fields", rfl⟩

/-- Claim C4: for every catalog/model pair and every value of the full-build
flag, the Container rebuild request carries the body
`{"gracePeriodOverrides": {}}`, while the Installer rebuild request carries no
body and the flag only changes the query string of the URL. -/
theorem rebuild_cube_request_spec (config : Config) (catalog_id model_id : String)
    (b : Bool) :
    (config.instance_type = some "container" →
      ∀ req, rebuild_cube_request config catalog_id model_id b = .ok req →
        req.body = some (.obj [("gracePeriodOverrides", .obj [])])) ∧
    (config.instance_type = some "installer" →
      ∀ req, rebuild_cube_request config catalog_id model_id b = .ok req →
        req.body = none ∧
        ∀ b' req', rebuild_cube_request config catalog_id model_id b' = .ok req' →
          req'.body = none ∧
          ∃ stem, req.url = stem ++ pyBoolStr b ∧ req'.url = stem ++ pyBoolStr b') := by
  constructor
  · intro hct req hreq
    have hni : ¬ config.instance_type = some "installer" := by simp [hct]
    unfold rebuild_cube_request at hreq
    rw [if_neg hni] at hreq
    cases hb : get_base_url config with
    | error e => rw [hb] at hreq; simp at hreq
    | ok base =>
      rw [hb] at hreq
      simp only [Except.ok.injEq] at hreq
      rw [← hreq]
  · intro hins req hreq
    unfold rebuild_cube_request at hreq
    rw [if_pos hins] at hreq
    cases hh : config.host with
    | none => rw [hh] at hreq; simp at hreq
    | some host =>
      rw [hh] at hreq
      cases ho : config.organization with
      | none => rw [ho] at hreq; simp at hreq
      | some org =>
        rw [ho] at hreq
        simp only [Except.ok.injEq] at hreq
        subst hreq
        refine ⟨rfl, ?_⟩
        intro b' req' hreq'
        unfold rebuild_cube_request at hreq'
        rw [if_pos hins, hh, ho] at hreq'
        simp only [Except.ok.injEq] at hreq'
        subst hreq'
        exact ⟨rfl,
          "https://" ++ host ++ ":10502/aggregate-batch/orgId/" ++ org ++
            "/projectId/" ++ catalog_id ++ "?cubeId=" ++ model_id ++ "&isFullBuild=",
          rfl, rfl⟩

theorem rebuild_cube_request_spec_witness :
    ({ url := "https://h/v1/aggregates-batch/catalogs/c/models/m?isFullBuild=true",
       body := some (.obj [("gracePeriodOverrides", .obj [])]) } : HttpRequest).body =
      some (.obj [("gracePeriodOverrides", .obj [])]) :=
  (rebuild_cube_request_spec { instance_type := some "container", host := some "h" }
    "c" "m" true).1 rfl _ rfl

lemma mapOption_length {α β : Type} (f : α → Option β) :
    ∀ (l : List α) (l' : List β), mapOption f l = some l' → l'.length = l.length := by
  intro l
  induction l with
  | nil =>
    intro l' h
    simp only [mapOption, Option.some.injEq] at h
    subst h
    rfl
  | cons x xs ih =>
    intro l' h
    simp only [mapOption] at h
    cases hfx : f x with
    | none => rw [hfx] at h; simp at h
    | some y =>
      rw [hfx] at h
      cases hmx : mapOption f xs with
      | none => rw [hmx] at h; simp at h
      | some ys =>
        rw [hmx] at h
        simp only [Option.some.injEq] at h
        subst h
        simp [ih ys hmx]

lemma mapOption_forall₂ {α β : Type} (f : α → Option β) :
    ∀ (l : List α) (l' : List β), mapOption f l = some l' →
      List.Forall₂ (fun a b => f a = some b) l l' := by
  intro l
  induction l with
  | nil =>
    intro l' h
    simp only [mapOption, Option.some.injEq] at h
    subst h
    exact List.Forall₂.nil
  | cons x xs ih =>
    intro l' h
    simp only [mapOption] at h
    cases hfx : f x with
    | none => rw [hfx] at h; simp at h
    | some y =>
      rw [hfx] at h
      cases hmx : mapOption f xs with
      | none => rw [hmx] at h; simp at h
      | some ys =>
        rw [hmx] at h
        simp only [Option.some.injEq] at h
        subst h
        exact List.Forall₂.cons hfx (ih ys hmx)

lemma lookup_map_overwrite_self (k : String) (v : JVal) :
    ∀ d : List (String × JVal), d.any (fun p => p.1 == k) = true →
      List.lookup k (d.map (fun p => if p.1 == k then (k, v) else p)) = some v := by
  intro d
  induction d with
  | nil => intro h; simp at h
  | cons p tl ih =>
    intro h
    obtain ⟨a, b⟩ := p
    by_cases hak : (a == k) = true
    · rw [List.map_cons, if_pos hak]
      simp [List.lookup]
    · have h' : tl.any (fun p => p.1 == k) = true := by
        simpa [List.any_cons, hak] using h
      have ha : a ≠ k := by simpa using hak
      have hka : (k == a) = false := beq_eq_false_iff_ne.mpr (Ne.symm ha)
      rw [List.map_cons, if_neg hak]
      simp only [List.lookup, hka]
      exact ih h'

lemma lookup_append_single_eq (k : String) (v : JVal) :
    ∀ d : List (String × JVal), d.any (fun p => p.1 == k) = false →
      List.lookup k (d ++ [(k, v)]) = some v := by
  intro d
  induction d with
  | nil => intro _; simp [List.lookup]
  | cons p tl ih =>
    intro h
    obtain ⟨a, b⟩ := p
    rw [List.any_cons, Bool.or_eq_false_iff] at h
    obtain ⟨hak, htl⟩ := h
    have ha : a ≠ k := by simpa using hak
    have hka : (k == a) = false := beq_eq_false_iff_ne.mpr (Ne.symm ha)
    simp [List.lookup, hka, ih htl]

lemma lookup_setKey_self (d : List (String × JVal)) (k : String) (v : JVal) :
    List.lookup k (setKey d k v) = some v := by
  unfold setKey
  by_cases h : d.any (fun p => p.1 == k) = true
  · rw [if_pos h]
    exact lookup_map_overwrite_self k v d h
  · rw [if_neg h]
    have hfalse : d.any (fun p => p.1 == k) = false := by
      cases hval : d.any (fun p => p.1 == k)
      · rfl
      · exact absurd hval h
    exact lookup_append_single_eq k v d hfalse

lemma lookup_map_overwrite_ne (k k' : String) (v : JVal) (hk : k' ≠ k) :
    ∀ d : List (String × JVal),
      List.lookup k' (d.map (fun p => if p.1 == k then (k, v) else p)) =
        List.lookup k' d := by
  intro d
  induction d with
  | nil => rfl
  | cons p tl ih =>
    obtain ⟨a, b⟩ := p
    by_cases hak : (a == k) = true
    · have ha : a = k := by simpa using hak
      subst ha
      have hka : (k' == a) = false := beq_eq_false_iff_ne.mpr hk
      rw [List.map_cons, if_pos hak]
      simp only [List.lookup, hka]
      exact ih
    · rw [List.map_cons, if_neg hak]
      cases hk'a : k' == a
      · simp only [List.lookup, hk'a]
        exact ih
      · simp only [List.lookup, hk'a]

lemma lookup_append_single_ne (k k' : String) (v : JVal) (hk : k' ≠ k) :
    ∀ d : List (String × JVal),
      List.lookup k' (d ++ [(k, v)]) = List.lookup k' d := by
  intro d
  induction d with
  | nil =>
    have hka : (k' == k) = false := beq_eq_false_iff_ne.mpr hk
    simp [List.lookup, hka]
  | cons p tl ih =>
    obtain ⟨a, b⟩ := p
    cases hk'a : k' == a
    · simp only [List.cons_append, List.lookup, hk'a]
      exact ih
    · simp only [List.cons_append, List.lookup, hk'a]

lemma lookup_setKey_ne (d : List (String × JVal)) (k k' : String) (v : JVal)
    (hk : k' ≠ k) :
    List.lookup k' (setKey d k v) = List.lookup k' d := by
  unfold setKey
  by_cases h : d.any (fun p => p.1 == k) = true
  · rw [if_pos h]
    exact lookup_map_overwrite_ne k k' v hk d
  · rw [if_neg h]
    exact lookup_append_single_ne k k' v hk d

lemma activeInstance_lookup_eq_latest (agg stats : List (String × JVal)) (k : String)
    (hk : k ≠ "stats") :
    List.lookup k (activeInstanceDict agg stats) =
      List.lookup k (latestInstanceDict agg stats) := by
  have hks : (k == "stats") = false := beq_eq_false_iff_ne.mpr hk
  simp [activeInstanceDict, latestInstanceDict, List.lookup, hks]

/-- Claim C10: every normalized Container aggregate record has `name` equal to
`id` (both the source `definitionId`), `type` `"system_defined"`, `subtype`
`"prediction_defined"`, and an empty `attributes` list. -/
theorem transformAggregate_constant_fields (agg : List (String × JVal))
    (catalog_id model_id : String) (out : List (String × JVal))
    (h : transformAggregate agg catalog_id model_id = some out) :
    List.lookup "name" out = List.lookup "id" out ∧
    List.lookup "id" out = some (dictGet agg "definitionId" (.str "")) ∧
    List.lookup "type" out = some (.str "system_defined") ∧
    List.lookup "subtype" out = some (.str "prediction_defined") ∧
    List.lookup "attributes" out = some (.arr []) := by
  unfold transformAggregate at h
  cases hs : getStats agg with
  | none => rw [hs] at h; simp at h
  | some stats =>
    rw [hs] at h
    simp only [Option.map_some'] at h
    obtain h' := Option.some.inj h
    subst h'
    exact ⟨rfl, rfl, rfl, rfl, rfl⟩

theorem transformAggregate_constant_fields_witness :
    List.lookup "name" (transformedAggregate [] [] "c" "m") =
      List.lookup "id" (transformedAggregate [] [] "c" "m") ∧
    List.lookup "id" (transformedAggregate [] [] "c" "m") = some (.str "") ∧
    List.lookup "type" (transformedAggregate [] [] "c" "m") =
      some (.str "system_defined") ∧
    List.lookup "subtype" (transformedAggregate [] [] "c" "m") =
      some (.str "prediction_defined") ∧
    List.lookup "attributes" (transformedAggregate [] [] "c" "m") = some (.arr []) :=
  transformAggregate_constant_fields [] "c" "m" (transformedAggregate [] [] "c" "m") rfl

/-- Claim C1, counterexample: on the source record
`{"stats": {"numberOfRows": 5}}`, the normalized record's `active_instance`
has the raw one-key source stats dict while `latest_instance` has the
four-field normalized stats dict, so `active_instance` does not deep-equal
`latest_instance`. -/
theorem transformAggregate_active_latest_counterexample :
    ((transformAggregate [("stats", .obj [("numberOfRows", .num 5)])] "c" "m").bind
        (fun out => jpath ["active_instance", "stats"] (.obj out))) ≠
      ((transformAggregate [("stats", .obj [("numberOfRows", .num 5)])] "c" "m").bind
        (fun out => jpath ["latest_instance", "stats"] (.obj out))) := by
  intro h
  have h' : (some (JVal.obj [("numberOfRows", JVal.num 5)]) : Option JVal) =
      some (JVal.obj
        [("materialization_start_time", JVal.str ""),
         ("materialization_end_time", JVal.str ""),
         ("build_duration", JVal.num 0),
         ("number_of_rows", JVal.num 5)]) := h
  simp at h'

/-- Claim C1, amended: the normalized record's
`latest_instance.stats.number_of_rows` equals the source record's
`stats.numberOfRows` (0 when absent), and `active_instance` agrees with
`latest_instance` on every field other than `stats`; its `stats` field is the
raw source stats dict, while `latest_instance.stats` is the normalized
four-field dict, so the two are not duplicates in general. -/
theorem transformAggregate_active_vs_latest (agg stats out : List (String × JVal))
    (catalog_id model_id : String)
    (hs : getStats agg = some stats)
    (h : transformAggregate agg catalog_id model_id = some out) :
    jpath ["latest_instance", "stats", "number_of_rows"] (.obj out) =
      some (dictGet stats "numberOfRows" (.num 0)) ∧
    jpath ["active_instance", "stats"] (.obj out) = some (.obj stats) ∧
    ∀ k, k ≠ "stats" →
      jpath ["active_instance", k] (.obj out) =
        jpath ["latest_instance", k] (.obj out) := by
  unfold transformAggregate at h
  rw [hs] at h
  simp only [Option.map_some'] at h
  obtain h' := Option.some.inj h
  subst h'
  refine ⟨rfl, rfl, ?_⟩
  intro k hk
  rw [jpath_cons "active_instance" [k] (transformedAggregate agg stats catalog_id model_id)
        (JVal.obj (activeInstanceDict agg stats)) rfl,
      jpath_cons "latest_instance" [k] (transformedAggregate agg stats catalog_id model_id)
        (JVal.obj (latestInstanceDict agg stats)) rfl,
      jpath_one, jpath_one]
  exact activeInstance_lookup_eq_latest agg stats k hk

theorem transformAggregate_active_vs_latest_witness :
    jpath ["latest_instance", "stats", "number_of_rows"]
        (.obj (transformedAggregate [("stats", .obj [("numberOfRows", .num 7)])]
          [("numberOfRows", .num 7)] "c" "m")) = some (.num 7) ∧
    jpath ["active_instance", "id"]
        (.obj (transformedAggregate [("stats", .obj [("numberOfRows", .num 7)])]
          [("numberOfRows", .num 7)] "c" "m")) =
      jpath ["latest_instance", "id"]
        (.obj (transformedAggregate [("stats", .obj [("numberOfRows", .num 7)])]
          [("numberOfRows", .num 7)] "c" "m")) :=
  ⟨(transformAggregate_active_vs_latest [("stats", .obj [("numberOfRows", .num 7)])]
      [("numberOfRows", .num 7)]
      (transformedAggregate [("stats", .obj [("numberOfRows", .num 7)])]
        [("numberOfRows", .num 7)] "c" "m") "c" "m" rfl rfl).1,
   (transformAggregate_active_vs_latest [("stats", .obj [("numberOfRows", .num 7)])]
      [("numberOfRows", .num 7)]
      (transformedAggregate [("stats", .obj [("numberOfRows", .num 7)])]
        [("numberOfRows", .num 7)] "c" "m") "c" "m" rfl rfl).2.2 "id" (by decide)⟩

/-- Claim C8: every envelope produced by the Container branch of
`get_aggregates_by_cube` has `total` equal to the length of its `data` list,
`offset` 0 and `limit` the constant 200, independent of the caller's `limit`
argument. -/
theorem get_aggregates_by_cube_container_envelope (payload : JVal)
    (catalog_id model_id : String) (limit : Int) (env : JVal)
    (h : get_aggregates_by_cube_container payload catalog_id model_id limit = some env) :
    (∀ limit', get_aggregates_by_cube_container payload catalog_id model_id limit' =
      some env) ∧
    ∃ ds : List JVal,
      jpath ["response", "data"] env = some (.arr ds) ∧
      jpath ["response", "total"] env = some (.num (ds.length : Int)) ∧
      jpath ["response", "limit"] env = some (.num 200) ∧
      jpath ["response", "offset"] env = some (.num 0) := by
  refine ⟨fun limit' => h, ?_⟩
  cases payload with
  | str s => simp [get_aggregates_by_cube_container, transform_container_aggregates] at h
  | num n => simp [get_aggregates_by_cube_container, transform_container_aggregates] at h
  | bool b => simp [get_aggregates_by_cube_container, transform_container_aggregates] at h
  | null => simp [get_aggregates_by_cube_container, transform_container_aggregates] at h
  | arr l => simp [get_aggregates_by_cube_container, transform_container_aggregates] at h
  | obj cd =>
    simp only [get_aggregates_by_cube_container, transform_container_aggregates] at h
    split at h
    · split at h
      · rename_i x items _ y transformed hmo
        simp only [Option.some.injEq] at h
        subst h
        refine ⟨transformed, rfl, ?_, rfl, rfl⟩
        rw [mapOption_length _ items transformed hmo]
        rfl
      · simp at h
    · simp at h

theorem get_aggregates_by_cube_container_envelope_witness :
    get_aggregates_by_cube_container (.obj []) "c" "m" 7 =
      some (.obj [("response", .obj
        [("data", .arr []), ("total", .num 0), ("limit", .num 200),
         ("offset", .num 0)])]) ∧
    ∃ ds : List JVal,
      jpath ["response", "data"]
          (JVal.obj [("response", .obj
            [("data", .arr []), ("total", .num 0), ("limit", .num 200),
             ("offset", .num 0)])]) = some (.arr ds) ∧
      jpath ["response", "total"]
          (JVal.obj [("response", .obj
            [("data", .arr []), ("total", .num 0), ("limit", .num 200),
             ("offset", .num 0)])]) = some (.num (ds.length : Int)) ∧
      jpath ["response", "limit"]
          (JVal.obj [("response", .obj
            [("data", .arr []), ("total", .num 0), ("limit", .num 200),
             ("offset", .num 0)])]) = some (.num 200) ∧
      jpath ["response", "offset"]
          (JVal.obj [("response", .obj
            [("data", .arr []), ("total", .num 0), ("limit", .num 200),
             ("offset", .num 0)])]) = some (.num 0) :=
  ⟨(get_aggregates_by_cube_container_envelope (.obj []) "c" "m" 0 _ rfl).1 7,
   (get_aggregates_by_cube_container_envelope (.obj []) "c" "m" 0 _ rfl).2⟩

/-- Claim C9, counterexample: a source build-history record that already has a
`batchId` key (and no `id` key) has that entry overwritten with `""`, so not
every source key-value pair survives unchanged. -/
theorem transformBuildBatch_counterexample :
    List.lookup "batchId" (transformBuildBatch [("batchId", JVal.str "x")]) ≠
      List.lookup "batchId" [("batchId", JVal.str "x")] := by
  intro h
  have h' : (some (JVal.str "") : Option JVal) = some (JVal.str "x") := h
  simp at h'

/-- Claim C9, amended: every record of the build-history envelope's data list
is the corresponding source record with every key other than `batchId`
preserved unchanged, and with `batchId` set to the source `id` field (empty
string if absent) — an existing `batchId` entry is overwritten. -/
theorem transform_build_history_records (cd : List (String × JVal)) (env : JVal)
    (h : transform_container_build_history (.obj cd) = some env) :
    (∃ items transformed,
      dictGet cd "data" (.arr []) = .arr items ∧
      jpath ["response", "data"] env = some (.arr transformed) ∧
      List.Forall₂
        (fun it t => ∃ b, it = JVal.obj b ∧ t = JVal.obj (transformBuildBatch b))
        items transformed) ∧
    ∀ b : List (String × JVal),
      List.lookup "batchId" (transformBuildBatch b) =
        some (dictGet b "id" (.str "")) ∧
      ∀ (k : String) (v : JVal), k ≠ "batchId" → List.lookup k b = some v →
        List.lookup k (transformBuildBatch b) = some v := by
  constructor
  · simp only [transform_container_build_history] at h
    split at h
    · split at h
      · rename_i x items hdata y transformed hmo
        simp only [Option.some.injEq] at h
        subst h
        refine ⟨items, transformed, hdata, rfl, ?_⟩
        refine List.Forall₂.imp ?_ (mapOption_forall₂ _ items transformed hmo)
        intro a t hat
        cases a with
        | str s => simp at hat
        | num n => simp at hat
        | bool b => simp at hat
        | null => simp at hat
        | arr l => simp at hat
        | obj b => exact ⟨b, rfl, (Option.some.inj hat).symm⟩
      · simp at h
    · simp at h
  · intro b
    refine ⟨lookup_setKey_self b "batchId" _, ?_⟩
    intro k v hk hkv
    unfold transformBuildBatch
    rw [lookup_setKey_ne b "batchId" k (dictGet b "id" (.str "")) hk]
    exact hkv

theorem transform_build_history_records_witness :
    (∃ items transformed,
      dictGet [] "data" (.arr []) = .arr items ∧
      jpath ["response", "data"]
          (JVal.obj [("response", .obj
            [("data", .arr []), ("total", .num 0), ("limit", .num 20),
             ("offset", .num 0)])]) = some (.arr transformed) ∧
      List.Forall₂
        (fun it t => ∃ b, it = JVal.obj b ∧ t = JVal.obj (transformBuildBatch b))
        items transformed) ∧
    List.lookup "batchId" (transformBuildBatch [("id", JVal.str "a")]) =
      some (.str "a") :=
  ⟨(transform_build_history_records [] _ rfl).1,
   ((transform_build_history_records [] _ rfl).2 [("id", JVal.str "a")]).1⟩
